import Mathlib

/-!
Shallow embedding of the hotspot_finder monitor (`src/tcp_client.py`):
the adaptive polling scheduler (`MonitorThread.check_all_airports`,
`AirportState.call_api_and_process`), the proximity-event dedup callback
(`MonitorThread.prox_callback`) and the shutdown handler
(`MonitorThread.handle_exit`).

Modelling conventions:
* wall-clock times, durations, distances and altitudes are rationals
  (the Python code works with `time.time()` floats and JSON numbers);
* the external analysis engine's overloaded subtraction between two
  location samples (`flight.lastloc - flight2.lastloc`) lives outside this
  repository, so it is a function parameter `locSub`;
* a Python `dict` is an insertion-ordered association list; assignment to
  an existing key replaces the value in place;
* one outbound API call is abstracted by a `QueryOutcome`: either the
  `try` block of `call_api_and_process` raises (`failure d`, caught by the
  broad `except`) or it yields data (`success d`), `d` being the wall-clock
  cost of the call; I/O side effects (logging, file writes, the engine
  ingestion call) are recorded as explicit fields of the result.
-/

/-- `LOW_FREQ_DELAY = 60` (seconds between queries for a quiet airport). -/
def LOW_FREQ_DELAY : ℚ := 60

/-- `API_RATE_LIMIT = 1` (minimum seconds between API queries). -/
def API_RATE_LIMIT : ℚ := 1

/-- `DEACTIVATE_SECS = 30` (no callback in this time deactivates an airport). -/
def DEACTIVATE_SECS : ℚ := 30

/-- `INNER_PROX_THRESH = 2.5` (inner distance threshold, nm). -/
def INNER_PROX_THRESH : ℚ := 5 / 2

/-- `INNER_PROX_ALT = 2500` (inner altitude-delta threshold, feet). -/
def INNER_PROX_ALT : ℚ := 2500

/-- Per-airport mutable state, from `AirportState.__init__`.  The
`adsb_actions` and `logfile` handles are process-global resources and are
not part of the per-airport data the scheduler branches on. -/
structure AirportState where
  name : String
  latlongring : ℚ × ℚ × ℚ
  active : Bool
  last_checked : ℚ
  last_activated : ℚ
  deriving DecidableEq, Repr

/-- `AirportState.__init__`: a freshly added airport is inactive with both
timestamps zero. -/
def AirportState.init (name : String) (latlongring : ℚ × ℚ × ℚ) : AirportState :=
  { name := name, latlongring := latlongring, active := false,
    last_checked := 0, last_activated := 0 }

/-- Abstract outcome of the `try` block of `call_api_and_process`: the
`requests.get`/`response.json()` pair either raises after `d` seconds
(`failure d`) or returns parsed data after `d` seconds (`success d`). -/
inductive QueryOutcome where
  | success (d : ℚ)
  | failure (d : ℚ)
  deriving DecidableEq, Repr

/-- Result of one `AirportState.call_api_and_process` run: the airport
state on return, whether the batch was forwarded to the analysis engine
(`adsb_actions.loop`), whether an error was logged, and the wall-clock
time at which the function returns (including the rate-limit sleep). -/
structure ApiCallResult where
  state : AirportState
  forwarded : Bool
  logged_error : Bool
  finish : ℚ
  deriving DecidableEq, Repr

/-- `AirportState.call_api_and_process`, started at wall-clock time
`start`.  On an exception inside the `try` block the function logs the
error and returns at once: no data is forwarded, `last_checked` is left
untouched, and the rate-limit sleep is skipped.  On success the batch is
written to the raw log and forwarded, `last_checked` is set to the
completion time `done`, and the function sleeps the remainder of
`API_RATE_LIMIT` not consumed by the call itself. -/
def call_api_and_process (start : ℚ) (o : QueryOutcome) (a : AirportState) :
    ApiCallResult :=
  match o with
  | QueryOutcome.failure d =>
      { state := a, forwarded := false, logged_error := true, finish := start + d }
  | QueryOutcome.success d =>
      let done := start + d
      let a' := { a with last_checked := done }
      let finish :=
        if done - start < API_RATE_LIMIT then done + (API_RATE_LIMIT - (done - start))
        else done
      { state := a', forwarded := true, logged_error := false, finish := finish }

/-- Wall-clock time at which `call_api_and_process` returns, as a function
of its start time and outcome alone. -/
def query_finish (start : ℚ) (o : QueryOutcome) : ℚ :=
  (call_api_and_process start o (AirportState.init "" (0, 0, 0))).finish

/-- Issue times of the successive queries of a run: each query starts when
the previous `call_api_and_process` returns (loop overhead between two
queries is not modelled; it can only increase the spacing). -/
def issue_times (t : ℚ) : List QueryOutcome → List ℚ
  | [] => []
  | o :: rest => t :: issue_times (query_finish t o) rest

/-- The body of the `for` loop of `MonitorThread.check_all_airports` for
one airport, processed at wall-clock time `now` with API outcome `o`:
an active airport is deactivated and skipped when
`last_activated + DEACTIVATE_SECS < now` (the `deactivate_airport` call is
a no-op unless the monitor thread is running), and queried otherwise; a
quiet airport is queried only when `now - last_checked > LOW_FREQ_DELAY`.
Returns the updated airport and whether a query was issued. -/
def check_airport_step (running : Bool) (now : ℚ) (o : QueryOutcome)
    (a : AirportState) : AirportState × Bool :=
  if a.active then
    if a.last_activated + DEACTIVATE_SECS < now then
      (if running then { a with active := false } else a, false)
    else
      ((call_api_and_process now o a).state, true)
  else
    if now - a.last_checked > LOW_FREQ_DELAY then
      ((call_api_and_process now o a).state, true)
    else (a, false)

/-- A flight's last location sample: the fields of `flight.lastloc` the
monitor reads (`now`, `alt_baro`).  The geographic position is folded into
the external distance metric `locSub`. -/
structure FlightLoc where
  now : ℚ
  alt_baro : ℚ
  deriving DecidableEq, Repr

/-- A flight handle as seen by `prox_callback`: the `flags` dictionary is
read only at keys `'note'` (owning airport name, possibly absent) and
`'logged'` (absent encoded as the `.get` default `False`); `to_str()` is
rendered by the external engine and modelled as the opaque field `str`. -/
structure Flight where
  flags_note : Option String
  flags_logged : Bool
  lastloc : FlightLoc
  flight_id : String
  str : String
  deriving DecidableEq, Repr

/-- The `Event` class: captures both flights' `to_str()` renderings, their
last locations and the airport name at construction time. -/
structure Event where
  f1str : String
  f2str : String
  f1loc : FlightLoc
  f2loc : FlightLoc
  airport : String
  deriving DecidableEq, Repr

/-- `Event.to_str`, with the engine's location subtraction passed in as
`locSub` (`abs(self.f1loc - self.f2loc)` is its absolute value). -/
def Event.to_str (locSub : FlightLoc → FlightLoc → ℚ) (e : Event) : String :=
  "Event at " ++ e.airport ++ " " ++ toString e.f1loc.now.floor ++ " dist "
    ++ toString |locSub e.f1loc e.f2loc| ++ " " ++ e.f1str ++ " === " ++ e.f2str

/-- Lookup in an insertion-ordered Python dict of events keyed by
timestamp. -/
def dict_lookup : List (ℚ × Event) → ℚ → Option Event
  | [], _ => none
  | (k', v') :: rest, k => if k' = k then some v' else dict_lookup rest k

/-- Assignment `d[k] = v` on an insertion-ordered Python dict: replaces in
place when the key exists, appends otherwise. -/
def dict_insert : List (ℚ × Event) → ℚ → Event → List (ℚ × Event)
  | [], k, v => [(k, v)]
  | (k', v') :: rest, k, v =>
      if k' = k then (k, v) :: rest else (k', v') :: dict_insert rest k v

/-- Lookup in the `MonitorThread.airports` dict (keyed by airport name). -/
def airports_lookup : List (String × AirportState) → String → Option AirportState
  | [], _ => none
  | (k', v') :: rest, k => if k' = k then some v' else airports_lookup rest k

/-- In-place field update of an entry of the `airports` dict (Python
mutates the stored `AirportState` object; a missing key is handled by the
caller). -/
def airports_update (f : AirportState → AirportState) :
    List (String × AirportState) → String → List (String × AirportState)
  | [], _ => []
  | (k', v') :: rest, k =>
      if k' = k then (k', f v') :: rest else (k', v') :: airports_update f rest k

/-- The `MonitorThread` state read and written by the callback and the
shutdown handler: the airport table (insertion-ordered dict), the
in-memory event dict keyed by `flight.lastloc.now`, the lines appended to
the persistent event file, and the `thread_running` flag. -/
structure MonitorState where
  airports : List (String × AirportState)
  event_dict : List (ℚ × Event)
  event_file : List String
  thread_running : Bool
  deriving DecidableEq, Repr

/-- `MonitorThread.activate_airport`: a no-op unless the monitor thread is
running; otherwise sets the named airport active and refreshes
`last_activated` to `now`.  A name absent from the table raises `KeyError`
(modelled as `Except.error`). -/
def activate_airport (s : MonitorState) (now : ℚ) (name : String) :
    Except String MonitorState :=
  if s.thread_running then
    match airports_lookup s.airports name with
    | none => Except.error "KeyError"
    | some _ =>
        Except.ok { s with airports := (airports_update
          (fun a => { a with active := true, last_activated := now }) s.airports name) }
  else Except.ok s

/-- `MonitorThread.prox_callback`, invoked by the analysis engine with two
flight handles at wall-clock time `now`; `locSub` is the engine's
subtraction between two location samples.  A missing `'note'` flag on the
first flight is logged and re-raised (`Except.error`).  The callback
unconditionally reactivates the owning airport, then records an event only
when the pair is below both inner thresholds and the first flight is not
yet flagged `'logged'`.  Returns the updated monitor state and the first
flight (whose `flags` dict the callback may mutate). -/
def prox_callback (locSub : FlightLoc → FlightLoc → ℚ) (now : ℚ)
    (s : MonitorState) (flight flight2 : Flight) :
    Except String (MonitorState × Flight) :=
  match flight.flags_note with
  | none => Except.error "No airport in flags"
  | some airport =>
    match activate_airport s now airport with
    | Except.error e => Except.error e
    | Except.ok s1 =>
      let flight_dist := |locSub flight.lastloc flight2.lastloc|
      let flight_alt_delta := |flight.lastloc.alt_baro - flight2.lastloc.alt_baro|
      if flight_dist < INNER_PROX_THRESH ∧ flight_alt_delta < INNER_PROX_ALT then
        if flight.flags_logged then Except.ok (s1, flight)
        else
          let flight' := { flight with flags_logged := true }
          let event : Event :=
            { f1str := flight.str, f2str := flight2.str, f1loc := flight.lastloc,
              f2loc := flight2.lastloc, airport := airport }
          Except.ok
            ({ s1 with
                event_dict := dict_insert s1.event_dict flight.lastloc.now event,
                event_file := s1.event_file ++ [Event.to_str locSub event] },
             flight')
      else Except.ok (s1, flight)

/-- `prox_callback` iterated `n` times on the same pair, threading the
monitor state and the (possibly flag-mutated) first flight. -/
def iter_prox (locSub : FlightLoc → FlightLoc → ℚ) (now : ℚ) :
    Nat → MonitorState → Flight → Flight → Except String (MonitorState × Flight)
  | 0, s, f1, _ => Except.ok (s, f1)
  | n + 1, s, f1, f2 =>
    match prox_callback locSub now s f1 f2 with
    | Except.error e => Except.error e
    | Except.ok (s', f1') => iter_prox locSub now n s' f1' f2

/-- One full tick of `MonitorThread.check_all_airports`: each airport is
processed in table order, paired with the wall-clock time at which the
loop reaches it and the outcome of its query (if one is issued).  Returns
the updated airports and `query_ctr`, the number of queries issued. -/
def check_all_airports (running : Bool) :
    List (AirportState × ℚ × QueryOutcome) → List AirportState × Nat
  | [] => ([], 0)
  | (a, now, o) :: rest =>
      let step := check_airport_step running now o a
      let tail := check_all_airports running rest
      (step.1 :: tail.1, tail.2 + (if step.2 then 1 else 0))

/-- Side effects of the shutdown handler, in execution order. -/
inductive ExitEffect where
  | dump_events
  | close_event_file
  | close_raw_log
  | exit_process
  deriving DecidableEq, Repr

/-- `MonitorThread.handle_exit` (the SIGINT handler): dumps the in-memory
event dict to the log stream, closes the event file, then closes the raw
data log through `list(self.airports.values())[0].logfile` and calls
`sys.exit(0)`.  With an empty airport table the subscript `[0]` raises
`IndexError` after the first two steps, so the raw-data log is never
closed and `sys.exit` is never reached.  Returns the effects performed, in
order, and the uncaught exception if one is raised. -/
def handle_exit (s : MonitorState) : List ExitEffect × Option String :=
  match s.airports with
  | [] =>
      ([ExitEffect.dump_events, ExitEffect.close_event_file],
       some "IndexError: list index out of range")
  | _ :: _ =>
      ([ExitEffect.dump_events, ExitEffect.close_event_file,
        ExitEffect.close_raw_log, ExitEffect.exit_process], none)

/-! Concrete sample inputs used by counterexamples and witnesses. -/

/-- An engine distance metric that reports the two samples 0 nm apart. -/
def dZero : FlightLoc → FlightLoc → ℚ := fun _ _ => 0

/-- An engine distance metric that reports the two samples 3 nm apart. -/
def dThree : FlightLoc → FlightLoc → ℚ := fun _ _ => 3

def locA : FlightLoc := { now := 100, alt_baro := 1000 }

def locB : FlightLoc := { now := 101, alt_baro := 1500 }

def fA : Flight :=
  { flags_note := some "OAK", flags_logged := false, lastloc := locA,
    flight_id := "N100A", str := "N100A 37.7 -122.2" }

def fAlog : Flight := { fA with flags_logged := true }

def fB : Flight :=
  { flags_note := some "OAK", flags_logged := false, lastloc := locB,
    flight_id := "N200B", str := "N200B 37.7 -122.2" }

def fBlog : Flight := { fB with flags_logged := true }

def fC : Flight :=
  { flags_note := some "OAK", flags_logged := false, lastloc := locA,
    flight_id := "N300C", str := "N300C 37.7 -122.2" }

def fNoNote : Flight :=
  { flags_note := none, flags_logged := false, lastloc := locA,
    flight_id := "N400D", str := "N400D 37.7 -122.2" }

def aOak : AirportState := AirportState.init "OAK" (5, 37, -122)

/-- A quiet airport whose last (failed or slow) check was at `t = 5`. -/
def aFailDemo : AirportState :=
  { name := "SFO", latlongring := (5, 37, -122), active := false,
    last_checked := 5, last_activated := 0 }

/-- An active airport exactly at the deactivation boundary when processed
at `now = 100`: `100 - last_activated = DEACTIVATE_SECS`. -/
def aEdge : AirportState :=
  { name := "EDG", latlongring := (5, 40, -120), active := true,
    last_checked := 0, last_activated := 70 }

/-- An active airport strictly past the deactivation boundary at
`now = 100`. -/
def aStale : AirportState :=
  { name := "STL", latlongring := (5, 41, -121), active := true,
    last_checked := 0, last_activated := 60 }

/-- Monitor state with one quiet airport and the monitor thread running. -/
def sRun : MonitorState :=
  { airports := [("OAK", aOak)], event_dict := [], event_file := [],
    thread_running := true }

/-- `sRun` after `activate_airport _ 200 "OAK"`. -/
def sAct200 : MonitorState :=
  { sRun with airports := [("OAK", { aOak with active := true, last_activated := 200 })] }

/-- Monitor state before the scheduler thread starts (as in replay mode):
no airports, thread not running. -/
def sIdle : MonitorState :=
  { airports := [], event_dict := [], event_file := [],
    thread_running := false }

def evAB : Event :=
  { f1str := fA.str, f2str := fB.str, f1loc := locA, f2loc := locB, airport := "OAK" }

def evCB : Event :=
  { f1str := fC.str, f2str := fB.str, f1loc := locA, f2loc := locB, airport := "OAK" }

/-- `sIdle` after the below-threshold callback on `(fA, fB)`. -/
def sDup1 : MonitorState :=
  { sIdle with
    event_dict := [(100, evAB)],
    event_file := [Event.to_str dZero evAB] }

/-- `sDup1` after the below-threshold callback on `(fC, fB)`: `fC` carries
the same sample timestamp as `fA`, so the dict entry is replaced. -/
def sDup2 : MonitorState :=
  { sDup1 with
    event_dict := [(100, evCB)],
    event_file := [Event.to_str dZero evAB, Event.to_str dZero evCB] }

def itemFresh : AirportState × ℚ × QueryOutcome :=
  (AirportState.init "LAX" (10, 33, -118), 1000, QueryOutcome.success 0)

def aOak300 : AirportState := { aOak with active := true, last_activated := 300 }

def evBA : Event :=
  { f1str := fB.str, f2str := fA.str, f1loc := locB, f2loc := locA, airport := "OAK" }

/-- `sRun` after the below-threshold callback on `(fA, fB)` at `now = 300`. -/
def sC9a : MonitorState :=
  { airports := [("OAK", aOak300)], event_dict := [(100, evAB)],
    event_file := [Event.to_str dZero evAB], thread_running := true }

/-- `sC9a` after the swapped-order callback on `(fB, fAlog)` at `now = 300`. -/
def sC9b : MonitorState :=
  { airports := [("OAK", aOak300)], event_dict := [(100, evAB), (101, evBA)],
    event_file := [Event.to_str dZero evAB, Event.to_str dZero evBA],
    thread_running := true }

/-! Helper lemmas. -/

/-- `call_api_and_process` on a successful query, written out. -/
theorem call_api_success_spec (start d : ℚ) (a : AirportState) :
    call_api_and_process start (QueryOutcome.success d) a =
      { state := { a with last_checked := start + d }, forwarded := true,
        logged_error := false,
        finish := if start + d - start < API_RATE_LIMIT
          then start + d + (API_RATE_LIMIT - (start + d - start)) else start + d } := rfl

/-- A failed query returns immediately: no pacing sleep. -/
theorem query_finish_failure (t d : ℚ) :
    query_finish t (QueryOutcome.failure d) = t + d := rfl

/-- After a successful query, `call_api_and_process` does not return before
`start + API_RATE_LIMIT`: the sleep tops the call cost up to the limit. -/
theorem query_finish_success_ge (t d : ℚ) :
    t + API_RATE_LIMIT ≤ query_finish t (QueryOutcome.success d) := by
  unfold query_finish
  rw [call_api_success_spec]
  simp only []
  split_ifs with h
  · linarith
  · linarith [not_lt.mp h]

theorem issue_times_length (t : ℚ) (os : List QueryOutcome) :
    (issue_times t os).length = os.length := by
  induction os generalizing t with
  | nil => rfl
  | cons o rest ih => simp [issue_times, ih]

theorem issue_times_get_zero (t : ℚ) (os : List QueryOutcome)
    (h : 0 < (issue_times t os).length) :
    (issue_times t os).get ⟨0, h⟩ = t := by
  cases os with
  | nil => simp [issue_times] at h
  | cons o rest => rfl

/-! Claim theorems: scheduler side. -/

/-- C2 (amended): on a query failure (network, timeout or JSON-parsing
error raised inside the `try` block), `call_api_and_process` logs the
error, forwards no records to the analysis engine, returns normally (the
exception is caught, so the scheduler loop does not crash), and leaves
`last_checked` unchanged — the failed attempt does not count as checked. -/
theorem call_api_failure_spec (start d : ℚ) (a : AirportState) :
    call_api_and_process start (QueryOutcome.failure d) a =
      { state := a, forwarded := false, logged_error := true,
        finish := start + d } := rfl

/-- C2 counterexample: a query for `aFailDemo` (last checked at `t = 5`)
issued at `t = 100` fails; `last_checked` stays `5`, not the claimed
updated timestamp `100`, and nothing is forwarded. -/
theorem call_api_failure_cex :
    (call_api_and_process 100 (QueryOutcome.failure 2) aFailDemo).state.last_checked = 5 ∧
    (call_api_and_process 100 (QueryOutcome.failure 2) aFailDemo).state.last_checked ≠ 100 ∧
    (call_api_and_process 100 (QueryOutcome.failure 2) aFailDemo).forwarded = false := by
  refine ⟨rfl, ?_, rfl⟩
  norm_num [call_api_and_process, aFailDemo]

/-- C3 (amended): for an active airport processed at time `now` by a
running monitor thread, the airport is deactivated and skipped (no query)
exactly when `now - last_activated` exceeds `DEACTIVATE_SECS` strictly
(the code tests `last_activated + DEACTIVATE_SECS < now`); otherwise the
airport is queried on this tick. -/
theorem active_deactivation_spec (now : ℚ) (o : QueryOutcome) (a : AirportState)
    (hact : a.active = true) :
    (DEACTIVATE_SECS < now - a.last_activated →
      check_airport_step true now o a = ({ a with active := false }, false)) ∧
    (¬ DEACTIVATE_SECS < now - a.last_activated →
      check_airport_step true now o a = ((call_api_and_process now o a).state, true)) := by
  constructor
  · intro h
    unfold check_airport_step
    rw [hact]
    rw [if_pos rfl, if_pos (by linarith), if_pos rfl]
  · intro h
    unfold check_airport_step
    rw [hact]
    rw [if_pos rfl, if_neg (by intro hc; exact h (by linarith))]

/-- Witness for C3: `aStale` (activated at 60, processed at 100) is
deactivated and skipped; `aEdge` (activated at 70, processed at 100, i.e.
exactly at the window boundary) is queried. -/
theorem active_deactivation_spec_witness :
    check_airport_step true 100 (QueryOutcome.success 0) aStale =
      ({ aStale with active := false }, false) ∧
    check_airport_step true 100 (QueryOutcome.success 0) aEdge =
      ((call_api_and_process 100 (QueryOutcome.success 0) aEdge).state, true) :=
  ⟨(active_deactivation_spec 100 (QueryOutcome.success 0) aStale rfl).1
      (by norm_num [DEACTIVATE_SECS, aStale]),
   (active_deactivation_spec 100 (QueryOutcome.success 0) aEdge rfl).2
      (by norm_num [DEACTIVATE_SECS, aEdge])⟩

/-- C3 counterexample: at `now = 100`, `aEdge` satisfies
`now - last_activated ≥ DEACTIVATE_SECS` (with equality), yet the airport
is queried and stays active — the claimed `≥` trigger does not fire at the
boundary, since the code uses a strict comparison. -/
theorem active_deactivation_boundary_cex :
    DEACTIVATE_SECS ≤ 100 - aEdge.last_activated ∧
    (check_airport_step true 100 (QueryOutcome.success 0) aEdge).2 = true ∧
    (check_airport_step true 100 (QueryOutcome.success 0) aEdge).1.active = true := by
  refine ⟨by norm_num [DEACTIVATE_SECS, aEdge], ?_, ?_⟩ <;>
    norm_num [check_airport_step, call_api_and_process, aEdge,
      DEACTIVATE_SECS, LOW_FREQ_DELAY, API_RATE_LIMIT]

/-- C4 (amended): in any run of consecutive queries, a query that follows
a successful query is issued at least `API_RATE_LIMIT` after it — the
successful call sleeps only the remainder of the limit after its own
wall-clock cost (self-paced pacing).  (A failed query skips the sleep, so
no spacing is guaranteed after a failure; see the counterexample.) -/
theorem rate_limit_after_success (os : List QueryOutcome) (t : ℚ) (i : Nat) (d : ℚ)
    (h3 : i < os.length) (h2 : i < (issue_times t os).length)
    (h1 : i + 1 < (issue_times t os).length)
    (hs : os.get ⟨i, h3⟩ = QueryOutcome.success d) :
    (issue_times t os).get ⟨i, h2⟩ + API_RATE_LIMIT ≤
      (issue_times t os).get ⟨i + 1, h1⟩ := by
  induction os generalizing t i with
  | nil => exact absurd h3 (by simp)
  | cons o rest ih =>
    cases i with
    | zero =>
      have hone : 0 < (issue_times (query_finish t o) rest).length := by
        have h1l := h1
        simp only [issue_times, List.length_cons] at h1l
        omega
      have hget1 : (issue_times t (o :: rest)).get ⟨1, h1⟩ = query_finish t o := by
        show (issue_times (query_finish t o) rest).get ⟨0, _⟩ = query_finish t o
        exact issue_times_get_zero _ _ hone
      have hget0 : (issue_times t (o :: rest)).get ⟨0, h2⟩ = t := rfl
      rw [hget0, hget1, show o = QueryOutcome.success d from hs]
      exact query_finish_success_ge t d
    | succ n =>
      have h3r : n < rest.length := by
        simpa using Nat.lt_of_succ_lt_succ h3
      have h2r : n < (issue_times (query_finish t o) rest).length := by
        have := h1
        simp only [issue_times, List.length_cons] at this
        omega
      have h1r : n + 1 < (issue_times (query_finish t o) rest).length := by
        have := h1
        simp only [issue_times, List.length_cons] at this
        omega
      have hsr : rest.get ⟨n, h3r⟩ = QueryOutcome.success d := hs
      exact ih (query_finish t o) n h3r h2r h1r hsr

/-- Witness for C4: two back-to-back instantaneous successful queries
starting at `t = 0` are spaced by the full rate limit. -/
theorem rate_limit_after_success_witness :
    (issue_times 0 [QueryOutcome.success 0, QueryOutcome.success 2]).get
        ⟨0, by simp [issue_times_length]⟩ + API_RATE_LIMIT ≤
      (issue_times 0 [QueryOutcome.success 0, QueryOutcome.success 2]).get
        ⟨1, by simp [issue_times_length]⟩ :=
  rate_limit_after_success [QueryOutcome.success 0, QueryOutcome.success 2] 0 0 0
    (by simp) (by simp [issue_times_length]) (by simp [issue_times_length]) rfl

/-- C4 counterexample: a query that fails after `0.1` s is followed by the
next query only `0.1` s later — strictly closer than `API_RATE_LIMIT` —
because the error path of `call_api_and_process` returns before the
pacing sleep. -/
theorem rate_limit_cex :
    issue_times 0 [QueryOutcome.failure (1 / 10), QueryOutcome.success 1] =
      [0, 1 / 10] ∧
    (1 / 10 : ℚ) - 0 < API_RATE_LIMIT := by
  constructor
  · norm_num [issue_times, query_finish, call_api_and_process]
  · norm_num [API_RATE_LIMIT]

/-- C10: a newly added airport starts inactive with `last_checked = 0`, so
on the first tick every configured airport (processed at any wall-clock
time above `LOW_FREQ_DELAY`, which epoch time always is) passes the
quiet-cadence test `now - last_checked > LOW_FREQ_DELAY` and is queried:
the tick issues as many queries as there are airports. -/
theorem fresh_airport_first_tick (running : Bool)
    (items : List (AirportState × ℚ × QueryOutcome))
    (h : ∀ x ∈ items, (∃ nm ring, x.1 = AirportState.init nm ring) ∧
      LOW_FREQ_DELAY < x.2.1) :
    (check_all_airports running items).2 = items.length := by
  induction items with
  | nil => rfl
  | cons x rest ih =>
    obtain ⟨⟨nm, ring, hx⟩, hnow⟩ := h x (List.mem_cons_self x rest)
    have hrest := ih (fun y hy => h y (List.mem_cons_of_mem x hy))
    obtain ⟨a, now, o⟩ := x
    have ha : a = AirportState.init nm ring := hx
    subst ha
    have hstep : (check_airport_step running now o (AirportState.init nm ring)).2 = true := by
      unfold check_airport_step AirportState.init
      simp only [Bool.false_eq_true, if_false]
      rw [if_pos (by rw [sub_zero]; exact hnow)]
    simp only [check_all_airports, hstep, if_true, List.length_cons]
    rw [hrest]

/-- Witness for C10: a single freshly added airport, first tick at
`now = 1000`: exactly one query is issued. -/
theorem fresh_airport_first_tick_witness :
    (check_all_airports true [itemFresh]).2 = [itemFresh].length := by
  apply fresh_airport_first_tick
  intro x hx
  rw [List.mem_singleton] at hx
  subst hx
  exact ⟨⟨"LAX", (10, 33, -118), rfl⟩, by norm_num [itemFresh, LOW_FREQ_DELAY]⟩

/-- C8 (code bug): on SIGINT with an empty airport table — exactly the
replay-mode configuration — `handle_exit` dumps the events and closes the
event file, but `list(self.airports.values())[0]` raises `IndexError`, so
the raw-data log is never closed and `sys.exit(0)` is never reached. -/
theorem handle_exit_empty_airports_bug :
    sIdle.airports = [] ∧
    handle_exit sIdle =
      ([ExitEffect.dump_events, ExitEffect.close_event_file],
       some "IndexError: list index out of range") ∧
    ExitEffect.close_raw_log ∉ (handle_exit sIdle).1 ∧
    ExitEffect.exit_process ∉ (handle_exit sIdle).1 := by
  refine ⟨rfl, rfl, ?_, ?_⟩ <;> decide

/-! Helper lemmas for the callback side. -/

theorem airports_lookup_update (f : AirportState → AirportState)
    (l : List (String × AirportState)) (name k : String) :
    airports_lookup (airports_update f l name) k =
      if k = name then (airports_lookup l k).map f else airports_lookup l k := by
  induction l with
  | nil => simp [airports_update, airports_lookup]
  | cons p rest ih =>
    obtain ⟨k', v'⟩ := p
    by_cases h1 : k' = name
    · subst h1
      by_cases h2 : k' = k
      · subst h2
        simp [airports_update, airports_lookup]
      · have h2s : ¬ k = k' := fun hh => h2 hh.symm
        simp [airports_update, airports_lookup, h2, h2s]
    · by_cases h2 : k' = k
      · subst h2
        simp [airports_update, airports_lookup, h1]
      · simp [airports_update, airports_lookup, h1, h2, ih]

/-- `activate_airport` before the monitor thread runs is a guarded no-op. -/
theorem activate_not_running {s : MonitorState} (now : ℚ) (name : String)
    (h : s.thread_running = false) :
    activate_airport s now name = Except.ok s := by
  unfold activate_airport
  rw [h]
  rfl

/-- `activate_airport` on a running monitor with the airport present:
sets the entry active with `last_activated = now`. -/
theorem activate_found {s : MonitorState} {name : String} {a0 : AirportState}
    (now : ℚ) (hrun : s.thread_running = true)
    (hl : airports_lookup s.airports name = some a0) :
    activate_airport s now name = Except.ok { s with airports := (airports_update
      (fun a => { a with active := true, last_activated := now }) s.airports name) } := by
  unfold activate_airport
  rw [hrun, hl]
  rfl

/-- Whatever `activate_airport` does on success, it only touches the
airport table: event fields, the running flag and the set of present
airport names are preserved. -/
theorem activate_ok_spec {s : MonitorState} {now : ℚ} {name : String}
    {s' : MonitorState} (h : activate_airport s now name = Except.ok s') :
    s'.event_dict = s.event_dict ∧ s'.event_file = s.event_file ∧
    s'.thread_running = s.thread_running ∧
    ∀ k, (airports_lookup s'.airports k).isSome = (airports_lookup s.airports k).isSome := by
  unfold activate_airport at h
  by_cases hrun : s.thread_running
  · rw [hrun] at h
    simp only [if_true] at h
    cases hl : airports_lookup s.airports name with
    | none => rw [hl] at h; exact absurd h (by simp)
    | some a0 =>
      rw [hl] at h
      simp only [Except.ok.injEq] at h
      subst h
      refine ⟨rfl, rfl, hrun.symm, fun k => ?_⟩
      simp only [airports_lookup_update]
      split_ifs with hk
      · subst hk; rw [hl]; rfl
      · rfl
  · rw [Bool.not_eq_true] at hrun
    rw [hrun] at h
    simp only [Bool.false_eq_true, if_false, Except.ok.injEq] at h
    subst h
    exact ⟨rfl, rfl, rfl, fun _ => rfl⟩

/-- If the scheduler has not started, or the named airport is in the
table, `activate_airport` cannot raise, and only the airport table
changes. -/
theorem activate_of_can {s : MonitorState} (now : ℚ) (name : String)
    (h : s.thread_running = true → (airports_lookup s.airports name).isSome = true) :
    ∃ s', activate_airport s now name = Except.ok s' ∧
      s'.event_dict = s.event_dict ∧ s'.event_file = s.event_file ∧
      s'.thread_running = s.thread_running ∧
      ∀ k, (airports_lookup s'.airports k).isSome = (airports_lookup s.airports k).isSome := by
  rcases Bool.eq_false_or_eq_true s.thread_running with hrun | hrun
  · obtain ⟨a0, hl⟩ := Option.isSome_iff_exists.mp (h hrun)
    have hact := activate_found now hrun hl
    exact ⟨_, hact, activate_ok_spec hact⟩
  · exact ⟨s, activate_not_running now name hrun, rfl, rfl, rfl, fun _ => rfl⟩

/-- `dict_insert` leaves lookups at other keys unchanged. -/
theorem dict_lookup_insert_ne (d : List (ℚ × Event)) (k t : ℚ) (v : Event)
    (h : t ≠ k) :
    dict_lookup (dict_insert d k v) t = dict_lookup d t := by
  induction d with
  | nil =>
    simp only [dict_insert, dict_lookup]
    rw [if_neg (fun hh : k = t => h hh.symm)]
  | cons p rest ih =>
    obtain ⟨k', v'⟩ := p
    by_cases h1 : k' = k
    · subst h1
      simp only [dict_insert, if_pos rfl, dict_lookup]
      rw [if_neg (fun hh : k' = t => h hh.symm), if_neg (fun hh : k' = t => h hh.symm)]
    · simp only [dict_insert, if_neg h1, dict_lookup]
      by_cases h2 : k' = t
      · rw [if_pos h2, if_pos h2]
      · rw [if_neg h2, if_neg h2]
        exact ih

/-- `prox_callback` on a pair below both inner thresholds whose first
flight is not yet flagged: stores one event (in-memory dict keyed by the
first flight's sample timestamp, one appended event-file line) and flags
the first flight. -/
theorem prox_store {locSub : FlightLoc → FlightLoc → ℚ} {now : ℚ}
    {s sa : MonitorState} {f1 f2 : Flight} {ap : String}
    (hn : f1.flags_note = some ap)
    (hact : activate_airport s now ap = Except.ok sa)
    (hd : |locSub f1.lastloc f2.lastloc| < INNER_PROX_THRESH)
    (haD : |f1.lastloc.alt_baro - f2.lastloc.alt_baro| < INNER_PROX_ALT)
    (hl : f1.flags_logged = false) :
    prox_callback locSub now s f1 f2 = Except.ok
      ({ sa with
          event_dict := (dict_insert sa.event_dict f1.lastloc.now
            { f1str := f1.str, f2str := f2.str, f1loc := f1.lastloc,
              f2loc := f2.lastloc, airport := ap }),
          event_file := sa.event_file ++ [Event.to_str locSub
            { f1str := f1.str, f2str := f2.str, f1loc := f1.lastloc,
              f2loc := f2.lastloc, airport := ap }] },
       { f1 with flags_logged := true }) := by
  simp only [prox_callback, hn, hact]
  rw [if_pos (And.intro hd haD), hl]
  simp

/-- `prox_callback` when the first flight is already flagged `'logged'`:
whatever the thresholds say, the monitor state is the activation result
and the flight is returned unchanged. -/
theorem prox_logged_nostore {locSub : FlightLoc → FlightLoc → ℚ} {now : ℚ}
    {s sa : MonitorState} {f1 f2 : Flight} {ap : String}
    (hn : f1.flags_note = some ap)
    (hact : activate_airport s now ap = Except.ok sa)
    (hl : f1.flags_logged = true) :
    prox_callback locSub now s f1 f2 = Except.ok (sa, f1) := by
  simp only [prox_callback, hn, hact]
  rw [hl]
  split_ifs with h1 h2
  · rfl
  · exact absurd rfl h2
  · rfl

/-- `prox_callback` on a pair that misses an inner threshold: no event is
stored; the state is the activation result, the flight unchanged. -/
theorem prox_miss_nostore {locSub : FlightLoc → FlightLoc → ℚ} {now : ℚ}
    {s sa : MonitorState} {f1 f2 : Flight} {ap : String}
    (hn : f1.flags_note = some ap)
    (hact : activate_airport s now ap = Except.ok sa)
    (hmiss : ¬ (|locSub f1.lastloc f2.lastloc| < INNER_PROX_THRESH ∧
      |f1.lastloc.alt_baro - f2.lastloc.alt_baro| < INNER_PROX_ALT)) :
    prox_callback locSub now s f1 f2 = Except.ok (sa, f1) := by
  simp only [prox_callback, hn, hact]
  rw [if_neg hmiss]

/-- Case analysis on any successful `prox_callback` run: the running flag
and the set of airports are untouched; and either nothing was stored (the
state can differ from the input only in the airport table, the flight is
returned unchanged), or the first flight was unflagged, got flagged, and
exactly one event was stored (dict insert at the flight's sample
timestamp plus one appended file line). -/
theorem prox_ok_cases {locSub : FlightLoc → FlightLoc → ℚ} {now : ℚ}
    {s s' : MonitorState} {f1 f2 g : Flight}
    (h : prox_callback locSub now s f1 f2 = Except.ok (s', g)) :
    s'.thread_running = s.thread_running ∧
    (∀ k, (airports_lookup s'.airports k).isSome =
      (airports_lookup s.airports k).isSome) ∧
    ((s'.event_dict = s.event_dict ∧ s'.event_file = s.event_file ∧ g = f1) ∨
     (f1.flags_logged = false ∧ g = { f1 with flags_logged := true } ∧
      ∃ ev, s'.event_dict = dict_insert s.event_dict f1.lastloc.now ev ∧
        s'.event_file = s.event_file ++ [Event.to_str locSub ev])) := by
  cases hn : f1.flags_note with
  | none => simp [prox_callback, hn] at h
  | some ap =>
    cases hA : activate_airport s now ap with
    | error e => simp [prox_callback, hn, hA] at h
    | ok sa =>
      obtain ⟨hd1, hd2, hd3, hd4⟩ := activate_ok_spec hA
      by_cases hb : |locSub f1.lastloc f2.lastloc| < INNER_PROX_THRESH ∧
          |f1.lastloc.alt_baro - f2.lastloc.alt_baro| < INNER_PROX_ALT
      · cases hl : f1.flags_logged with
        | true =>
          rw [prox_logged_nostore hn hA hl] at h
          simp only [Except.ok.injEq, Prod.mk.injEq] at h
          obtain ⟨hs, hg⟩ := h
          subst hs
          subst hg
          exact ⟨hd3, hd4, Or.inl ⟨hd1, hd2, rfl⟩⟩
        | false =>
          rw [prox_store hn hA hb.1 hb.2 hl] at h
          simp only [Except.ok.injEq, Prod.mk.injEq] at h
          obtain ⟨hs, hg⟩ := h
          subst hs
          subst hg
          refine ⟨hd3, hd4, Or.inr ⟨rfl, ?_, _, by rw [hd1], by rw [hd2]⟩⟩
          rw [hn]
      · rw [prox_miss_nostore hn hA hb] at h
        simp only [Except.ok.injEq, Prod.mk.injEq] at h
        obtain ⟨hs, hg⟩ := h
        subst hs
        subst hg
        exact ⟨hd3, hd4, Or.inl ⟨hd1, hd2, rfl⟩⟩

/-! Claim theorems: callback side. -/

/-- C1: for a pair below both inner thresholds, if the first flight's
`'logged'` flag is already set the callback returns without storing (the
event dict and the event file are untouched and the flight is returned
unchanged); consequently two consecutive invocations on the same pair
append at most one event-file line over the initial state. -/
theorem prox_logged_dedup (locSub : FlightLoc → FlightLoc → ℚ) (now : ℚ)
    (s : MonitorState) (f1 f2 : Flight)
    (hd : |locSub f1.lastloc f2.lastloc| < INNER_PROX_THRESH)
    (ha : |f1.lastloc.alt_baro - f2.lastloc.alt_baro| < INNER_PROX_ALT) :
    (f1.flags_logged = true →
      ∀ s' g, prox_callback locSub now s f1 f2 = Except.ok (s', g) →
        s'.event_dict = s.event_dict ∧ s'.event_file = s.event_file ∧ g = f1) ∧
    (∀ s1 g1 s2 g2, prox_callback locSub now s f1 f2 = Except.ok (s1, g1) →
      prox_callback locSub now s1 g1 f2 = Except.ok (s2, g2) →
      s2.event_file.length ≤ s.event_file.length + 1) := by
  constructor
  · intro hl s' g h
    rcases (prox_ok_cases h).2.2 with hcase | ⟨hfl, _⟩
    · exact hcase
    · rw [hl] at hfl
      exact absurd hfl (by simp)
  · intro s1 g1 s2 g2 h1 h2
    rcases (prox_ok_cases h1).2.2 with hc1 | ⟨hl1, hg1, ev1, hdict1, hfile1⟩
    · rcases (prox_ok_cases h2).2.2 with hc2 | ⟨hl2, hg2, ev2, hdict2, hfile2⟩
      · rw [hc2.2.1, hc1.2.1]
        omega
      · rw [hfile2, hc1.2.1]
        simp [List.length_append]
    · rcases (prox_ok_cases h2).2.2 with hc2 | ⟨hl2, hg2, ev2, hdict2, hfile2⟩
      · rw [hc2.2.1, hfile1]
        simp [List.length_append]
      · rw [hg1] at hl2
        exact absurd hl2 (by simp)

/-- Witness for C1: `fAlog` (already logged) against `fB` with the
zero-distance metric on the running one-airport state: the callback only
reactivates the airport; events are untouched. -/
theorem prox_logged_dedup_witness :
    sAct200.event_dict = sRun.event_dict ∧
    sAct200.event_file = sRun.event_file ∧ fAlog = fAlog := by
  refine (prox_logged_dedup dZero 200 sRun fAlog fB
      (by norm_num [dZero, INNER_PROX_THRESH])
      (by norm_num [fAlog, fA, fB, locA, locB, INNER_PROX_ALT])).1
    rfl sAct200 fAlog ?_
  norm_num [prox_callback, activate_airport, airports_lookup, airports_update, sRun,
    sAct200, fAlog, fA, fB, locA, locB, dZero, INNER_PROX_THRESH, INNER_PROX_ALT, aOak,
    AirportState.init]

/-- C6: a first flight without a `'note'` flag is a fatal contract
violation: `prox_callback` logs the diagnostic and re-raises.  In the
Python code the `raise` happens before `activate_airport` and before any
event is constructed, so no airport is reactivated and nothing is stored
(the model propagates the error without producing a state). -/
theorem prox_missing_note_fatal (locSub : FlightLoc → FlightLoc → ℚ) (now : ℚ)
    (s : MonitorState) (f1 f2 : Flight) (hn : f1.flags_note = none) :
    prox_callback locSub now s f1 f2 = Except.error "No airport in flags" := by
  simp [prox_callback, hn]

/-- Witness for C6: `fNoNote` has no `'note'` flag; the callback raises. -/
theorem prox_missing_note_fatal_witness :
    prox_callback dZero 0 sRun fNoNote fB = Except.error "No airport in flags" :=
  prox_missing_note_fatal dZero 0 sRun fNoNote fB rfl

/-- C7 (amended): every successful callback leaves the persistent event
file append-only (the old content is a prefix of the new), and in-memory
dict entries at every timestamp other than the first flight's sample
timestamp are untouched.  (An entry at the same timestamp can be replaced
— see the counterexample.) -/
theorem prox_append_only (locSub : FlightLoc → FlightLoc → ℚ) (now : ℚ)
    (s : MonitorState) (f1 f2 : Flight) (s' : MonitorState) (g : Flight)
    (h : prox_callback locSub now s f1 f2 = Except.ok (s', g)) :
    (∃ tail, s'.event_file = s.event_file ++ tail) ∧
    ∀ t, t ≠ f1.lastloc.now →
      dict_lookup s'.event_dict t = dict_lookup s.event_dict t := by
  rcases (prox_ok_cases h).2.2 with hc | ⟨hl, hg, ev, hdict, hfile⟩
  · exact ⟨⟨[], by rw [hc.2.1, List.append_nil]⟩, fun t ht => by rw [hc.1]⟩
  · refine ⟨⟨[Event.to_str locSub ev], hfile⟩, fun t ht => ?_⟩
    rw [hdict, dict_lookup_insert_ne _ _ _ _ ht]

/-- Witness for C7: the below-threshold callback on `(fA, fB)` stores at
timestamp 100; the lookup at timestamp 50 is unchanged. -/
theorem prox_append_only_witness :
    dict_lookup sDup1.event_dict 50 = dict_lookup sIdle.event_dict 50 := by
  refine (prox_append_only dZero 0 sIdle fA fB sDup1
      ({ fA with flags_logged := true }) ?_).2 50 (by norm_num [fA, locA])
  norm_num [prox_callback, activate_airport, sIdle, sDup1, fA, fB, locA, locB, dZero,
    INNER_PROX_THRESH, INNER_PROX_ALT, dict_insert, evAB]

/-- C7 counterexample: two distinct below-threshold pairs whose first
flights carry the same sample timestamp 100: the second store replaces the
first event in the in-memory dict (`event_dict[100]` is overwritten), so
the in-memory log is not append-only. -/
theorem event_overwrite_cex :
    prox_callback dZero 0 sIdle fA fB =
      Except.ok (sDup1, { fA with flags_logged := true }) ∧
    prox_callback dZero 0 sDup1 fC fB =
      Except.ok (sDup2, { fC with flags_logged := true }) ∧
    (100, evAB) ∈ sDup1.event_dict ∧ (100, evAB) ∉ sDup2.event_dict := by
  refine ⟨?_, ?_, ?_, ?_⟩
  · norm_num [prox_callback, activate_airport, sIdle, sDup1, fA, fB, locA, locB, dZero,
      INNER_PROX_THRESH, INNER_PROX_ALT, dict_insert, evAB]
  · norm_num [prox_callback, activate_airport, sIdle, sDup1, sDup2, fC, fA, fB, locA,
      locB, dZero, INNER_PROX_THRESH, INNER_PROX_ALT, dict_insert, evAB, evCB]
  · simp [sDup1]
  · simp [sDup2, sDup1, evAB, evCB, fA, fC]

/-- Auxiliary induction for C5: once the owning airport's entry is pinned
at `active` with `last_activated = now`, any number of missed-threshold
callbacks leaves the event log and that entry unchanged. -/
theorem iter_prox_miss_aux (locSub : FlightLoc → FlightLoc → ℚ) (now : ℚ)
    (f1 f2 : Flight) (ap : String) (a1 : AirportState)
    (hn : f1.flags_note = some ap)
    (hmiss : ¬ (|locSub f1.lastloc f2.lastloc| < INNER_PROX_THRESH ∧
      |f1.lastloc.alt_baro - f2.lastloc.alt_baro| < INNER_PROX_ALT))
    (hact1 : a1.active = true) (hact2 : a1.last_activated = now) :
    ∀ n (s : MonitorState), s.thread_running = true →
      airports_lookup s.airports ap = some a1 →
      ∀ s' g, iter_prox locSub now n s f1 f2 = Except.ok (s', g) →
      s'.event_file = s.event_file ∧ s'.event_dict = s.event_dict ∧
      airports_lookup s'.airports ap = some a1 := by
  have ha1 : { a1 with active := true, last_activated := now } = a1 := by
    obtain ⟨n1, r1, ac1, lc1, la1⟩ := a1
    simp only at hact1 hact2
    subst hact1
    subst hact2
    rfl
  intro n
  induction n with
  | zero =>
    intro s hrun hl s' g h
    simp only [iter_prox, Except.ok.injEq, Prod.mk.injEq] at h
    obtain ⟨hs, hg⟩ := h
    subst hs
    exact ⟨rfl, rfl, hl⟩
  | succ m ih =>
    intro s hrun hl s' g h
    have hact := activate_found now hrun hl
    have hcall := prox_miss_nostore hn hact hmiss
    rw [iter_prox, hcall] at h
    have hs1l : airports_lookup (airports_update
        (fun a => { a with active := true, last_activated := now }) s.airports ap) ap =
        some a1 := by
      rw [airports_lookup_update, if_pos rfl, hl]
      exact congrArg some ha1
    exact ih { s with airports := (airports_update
        (fun a => { a with active := true, last_activated := now }) s.airports ap) }
      hrun hs1l s' g h

/-- C5: a callback whose pair misses an inner threshold (e.g. distance 3
against 2.5) never stores an event, however often it repeats — yet each
callback still unconditionally reactivates the owning airport: after at
least one iteration the entry is active with `last_activated = now`. -/
theorem prox_miss_no_event (locSub : FlightLoc → FlightLoc → ℚ) (now : ℚ)
    (s : MonitorState) (f1 f2 : Flight) (ap : String) (a0 : AirportState)
    (hn : f1.flags_note = some ap)
    (hrun : s.thread_running = true)
    (hl : airports_lookup s.airports ap = some a0)
    (hmiss : ¬ (|locSub f1.lastloc f2.lastloc| < INNER_PROX_THRESH ∧
      |f1.lastloc.alt_baro - f2.lastloc.alt_baro| < INNER_PROX_ALT)) :
    ∀ n s' g, iter_prox locSub now n s f1 f2 = Except.ok (s', g) →
      s'.event_file = s.event_file ∧ s'.event_dict = s.event_dict ∧
      (1 ≤ n → airports_lookup s'.airports ap =
        some { a0 with active := true, last_activated := now }) := by
  intro n s' g h
  cases n with
  | zero =>
    simp only [iter_prox, Except.ok.injEq, Prod.mk.injEq] at h
    obtain ⟨hs, hg⟩ := h
    subst hs
    exact ⟨rfl, rfl, fun h10 => absurd h10 (by omega)⟩
  | succ m =>
    have hact := activate_found now hrun hl
    have hcall := prox_miss_nostore hn hact hmiss
    rw [iter_prox, hcall] at h
    have hs1l : airports_lookup (airports_update
        (fun a => { a with active := true, last_activated := now }) s.airports ap) ap =
        some { a0 with active := true, last_activated := now } := by
      rw [airports_lookup_update, if_pos rfl, hl]
      rfl
    have haux := iter_prox_miss_aux locSub now f1 f2 ap
      { a0 with active := true, last_activated := now } hn hmiss rfl rfl m
      { s with airports := (airports_update
          (fun a => { a with active := true, last_activated := now }) s.airports ap) }
      hrun hs1l s' g h
    exact ⟨haux.1, haux.2.1, fun _ => haux.2.2⟩

/-- Witness for C5: one iteration with the 3 nm metric on the running
one-airport state at `now = 200`: no event stored, airport reactivated. -/
theorem prox_miss_no_event_witness :
    sAct200.event_file = sRun.event_file ∧ sAct200.event_dict = sRun.event_dict ∧
    airports_lookup sAct200.airports "OAK" =
      some { aOak with active := true, last_activated := 200 } := by
  have h := prox_miss_no_event dThree 200 sRun fA fB "OAK" aOak rfl rfl
    (by norm_num [sRun, airports_lookup])
    (by norm_num [dThree, INNER_PROX_THRESH]) 1 sAct200 fA ?_
  · exact ⟨h.1, h.2.1, h.2.2 (by omega)⟩
  · norm_num [iter_prox, prox_callback, activate_airport, airports_lookup,
      airports_update, sRun, sAct200, fA, fB, locA, locB, dThree, INNER_PROX_THRESH,
      INNER_PROX_ALT, aOak, AirportState.init]

/-- C9: `prox_callback` is not symmetric in its flight arguments: the
`'logged'` flag is read and set only on the first flight, so after a
below-threshold callback on `(f1, f2)`, calling back with the swapped
order `(f2, f1-flagged)` stores a second event for the same encounter:
the event file grows by two lines over the two calls. -/
theorem prox_callback_asymmetric (locSub : FlightLoc → FlightLoc → ℚ) (now : ℚ)
    (s : MonitorState) (f1 f2 : Flight) (ap1 ap2 : String)
    (h1n : f1.flags_note = some ap1) (h2n : f2.flags_note = some ap2)
    (h1l : f1.flags_logged = false) (h2l : f2.flags_logged = false)
    (hc1 : s.thread_running = true → (airports_lookup s.airports ap1).isSome = true)
    (hc2 : s.thread_running = true → (airports_lookup s.airports ap2).isSome = true)
    (hd12 : |locSub f1.lastloc f2.lastloc| < INNER_PROX_THRESH)
    (hd21 : |locSub f2.lastloc f1.lastloc| < INNER_PROX_THRESH)
    (haD : |f1.lastloc.alt_baro - f2.lastloc.alt_baro| < INNER_PROX_ALT) :
    ∃ s1 s2, prox_callback locSub now s f1 f2 =
        Except.ok (s1, { f1 with flags_logged := true }) ∧
      prox_callback locSub now s1 f2 { f1 with flags_logged := true } =
        Except.ok (s2, { f2 with flags_logged := true }) ∧
      s2.event_file.length = s.event_file.length + 2 := by
  obtain ⟨sa, hA, had, haf, hat, hak⟩ := activate_of_can now ap1 hc1
  have hcall1 := prox_store h1n hA hd12 haD h1l
  have hc2' : ({ sa with
      event_dict := (dict_insert sa.event_dict f1.lastloc.now
        { f1str := f1.str, f2str := f2.str, f1loc := f1.lastloc,
          f2loc := f2.lastloc, airport := ap1 }),
      event_file := sa.event_file ++ [Event.to_str locSub
        { f1str := f1.str, f2str := f2.str, f1loc := f1.lastloc,
          f2loc := f2.lastloc, airport := ap1 }] } : MonitorState).thread_running = true →
      (airports_lookup ({ sa with
        event_dict := (dict_insert sa.event_dict f1.lastloc.now
          { f1str := f1.str, f2str := f2.str, f1loc := f1.lastloc,
            f2loc := f2.lastloc, airport := ap1 }),
        event_file := sa.event_file ++ [Event.to_str locSub
          { f1str := f1.str, f2str := f2.str, f1loc := f1.lastloc,
            f2loc := f2.lastloc, airport := ap1 }] } : MonitorState).airports ap2).isSome
        = true := by
    intro hr
    show (airports_lookup sa.airports ap2).isSome = true
    rw [hak ap2]
    exact hc2 (hat ▸ hr)
  obtain ⟨sb, hB, hbd, hbf, hbt, hbk⟩ := activate_of_can now ap2 hc2'
  have h2d : |locSub f2.lastloc ({ f1 with flags_logged := true } : Flight).lastloc| <
      INNER_PROX_THRESH := hd21
  have h2a : |f2.lastloc.alt_baro -
      ({ f1 with flags_logged := true } : Flight).lastloc.alt_baro| < INNER_PROX_ALT := by
    show |f2.lastloc.alt_baro - f1.lastloc.alt_baro| < INNER_PROX_ALT
    rw [abs_sub_comm]
    exact haD
  have hcall2 := prox_store h2n hB h2d h2a h2l
  refine ⟨_, _, hcall1, hcall2, ?_⟩
  show (sb.event_file ++ [_]).length = s.event_file.length + 2
  rw [List.length_append, hbf]
  show (sa.event_file ++ [_]).length + 1 = s.event_file.length + 2
  rw [List.length_append, haf]
  simp

/-- Witness for C9: `(fA, fB)` then the swapped `(fB, fAlog)` on the
running one-airport state at `now = 300`: both calls store, two event
lines end up in the file. -/
theorem prox_callback_asymmetric_witness :
    prox_callback dZero 300 sRun fA fB = Except.ok (sC9a, fAlog) ∧
    prox_callback dZero 300 sC9a fB fAlog = Except.ok (sC9b, fBlog) ∧
    sC9b.event_file.length = sRun.event_file.length + 2 := by
  obtain ⟨s1, s2, h1, h2, h3⟩ := prox_callback_asymmetric dZero 300 sRun fA fB
    "OAK" "OAK" rfl rfl rfl rfl
    (fun _ => by norm_num [sRun, airports_lookup])
    (fun _ => by norm_num [sRun, airports_lookup])
    (by norm_num [dZero, INNER_PROX_THRESH]) (by norm_num [dZero, INNER_PROX_THRESH])
    (by norm_num [fA, fB, locA, locB, INNER_PROX_ALT])
  have e1 : prox_callback dZero 300 sRun fA fB = Except.ok (sC9a, fAlog) := by
    norm_num [prox_callback, activate_airport, airports_lookup, airports_update, sRun,
      sC9a, aOak300, aOak, AirportState.init, fA, fB, fAlog, locA, locB, dZero,
      INNER_PROX_THRESH, INNER_PROX_ALT, dict_insert, evAB]
  have e2 : prox_callback dZero 300 sC9a fB fAlog = Except.ok (sC9b, fBlog) := by
    norm_num [prox_callback, activate_airport, airports_lookup, airports_update,
      sC9a, sC9b, aOak300, aOak, AirportState.init, fA, fB, fAlog, fBlog, locA, locB,
      dZero, INNER_PROX_THRESH, INNER_PROX_ALT, dict_insert, evAB, evBA]
  refine ⟨e1, e2, ?_⟩
  rw [e1] at h1
  simp only [Except.ok.injEq, Prod.mk.injEq] at h1
  obtain ⟨hs1, -⟩ := h1
  subst hs1
  rw [show fAlog = ({ fA with flags_logged := true } : Flight) from rfl] at e2
  rw [e2] at h2
  simp only [Except.ok.injEq, Prod.mk.injEq] at h2
  obtain ⟨hs2, -⟩ := h2
  subst hs2
  exact h3
